import Mathlib

/-!
Shallow embedding of the stratokit repository (src/stratokit/AWS/rds/main.py
and src/stratokit/AWS/auth/main.py).

The remote control plane (boto3 RDS client) is modelled by explicit inputs:
each remote call made by a method is represented by a CallResult value
supplied in an environment record, and each polling loop consumes a list of
poll responses.  An exception raised by a remote call is CallResult.exn; a
normal response is CallResult.ok.  Methods that may propagate an exception
return an Except value; a polling loop that would run forever on the given
response list is modelled by Option.none.  Mutating remote calls that a
method issues are collected in a trace, so claims of the form "call X is
never issued" are statements about that trace.
-/

/-- Result of one remote API call: either a normal response value or a
raised exception carrying a message. -/
inductive CallResult (α : Type) where
  | ok (val : α)
  | exn (msg : String)
deriving DecidableEq

/-- One response of a describe query inside a polling loop: either the call
raised (err), or it returned a list of resources, each reduced to its
status string (the Python code reads resp.get(key, []) and then the status
field of the first element). -/
inductive PollResp where
  | err (msg : String)
  | results (statuses : List String)
deriving DecidableEq

/-- Outcome of a polling loop that terminated: the target status was
observed (success), the describe query returned an empty list and the loop
raised a not-found ValueError (notFound), or the describe call itself
raised (error).  The except-blocks in the Python waiters print and re-raise,
so all three outcomes propagate to the caller unchanged. -/
inductive WaitOutcome where
  | success
  | notFound
  | error (msg : String)
deriving DecidableEq

/-- The polling loop shared verbatim by the three Python waiters
RDS._is_cluster_snapshot_ready, RDS._is_cluster_restored and
RDS._is_instance_available: describe the resource; an empty result list
raises ValueError (not found); otherwise read the first result status and
stop with success exactly when it equals the string "available"; any other
status sleeps and polls again.  Option.none models the loop still polling
after the supplied responses are exhausted (the source has no timeout). -/
def waitForAvailable : List PollResp → Option WaitOutcome
  | [] => none
  | PollResp.err m :: _ => some (WaitOutcome.error m)
  | PollResp.results [] :: _ => some WaitOutcome.notFound
  | PollResp.results (s :: _) :: rest =>
      if s = "available" then some WaitOutcome.success else waitForAvailable rest

/-- Embeds RDS._is_cluster_snapshot_ready (rds/main.py lines 31-72): polls
describe_db_cluster_snapshots until the first snapshot status is
"available"; empty DBClusterSnapshots raises ValueError; exceptions are
printed and re-raised. -/
def _is_cluster_snapshot_ready : List PollResp → Option WaitOutcome :=
  waitForAvailable

/-- Embeds RDS._is_cluster_restored (rds/main.py lines 103-149): polls
describe_db_clusters until the first cluster status is "available"; empty
DBClusters raises ValueError; exceptions are printed and re-raised. -/
def _is_cluster_restored : List PollResp → Option WaitOutcome :=
  waitForAvailable

/-- Embeds RDS._is_instance_available (rds/main.py lines 152-198): polls
describe_db_instances until the first instance DBInstanceStatus is
"available"; empty DBInstances raises ValueError; exceptions are printed
and re-raised. -/
def _is_instance_available : List PollResp → Option WaitOutcome :=
  waitForAvailable

lemma waitForAvailable_map_single_success_iff (ss : List String) :
    waitForAvailable (ss.map fun s => PollResp.results [s]) = some WaitOutcome.success ↔
      "available" ∈ ss := by
  induction ss with
  | nil => simp [waitForAvailable]
  | cons s t ih =>
      by_cases hs : s = "available"
      · subst hs; simp [waitForAvailable]
      · simp [waitForAvailable, hs, ih, Ne.symm hs]

lemma waitForAvailable_map_single_none_iff (ss : List String) :
    waitForAvailable (ss.map fun s => PollResp.results [s]) = none ↔
      "available" ∉ ss := by
  induction ss with
  | nil => simp [waitForAvailable]
  | cons s t ih =>
      by_cases hs : s = "available"
      · subst hs; simp [waitForAvailable]
      · simp [waitForAvailable, hs, ih, Ne.symm hs]

lemma waitForAvailable_append_of_not_available (ss : List String)
    (h : ∀ s ∈ ss, s ≠ "available") (rest : List PollResp) :
    waitForAvailable ((ss.map fun s => PollResp.results [s]) ++ rest) =
      waitForAvailable rest := by
  induction ss with
  | nil => rfl
  | cons s t ih =>
      have hs : s ≠ "available" := h s (List.mem_cons_self s t)
      simp only [List.map_cons, List.cons_append, waitForAvailable, hs, if_false]
      exact ih fun x hx => h x (List.mem_cons_of_mem s hx)

/-- C1: each readiness waiter (snapshot, cluster, instance) succeeds if and
only if a polled status equals the exact string "available"; every other
status string (unknown values, case variants) keeps the loop polling and is
never treated as success. -/
theorem waiters_success_iff_exact_available (ss : List String) :
    (_is_cluster_snapshot_ready (ss.map fun s => PollResp.results [s]) =
        some WaitOutcome.success ↔ "available" ∈ ss) ∧
    (_is_cluster_restored (ss.map fun s => PollResp.results [s]) =
        some WaitOutcome.success ↔ "available" ∈ ss) ∧
    (_is_instance_available (ss.map fun s => PollResp.results [s]) =
        some WaitOutcome.success ↔ "available" ∈ ss) ∧
    (_is_cluster_snapshot_ready (ss.map fun s => PollResp.results [s]) = none ↔
        "available" ∉ ss) ∧
    (_is_cluster_restored (ss.map fun s => PollResp.results [s]) = none ↔
        "available" ∉ ss) ∧
    (_is_instance_available (ss.map fun s => PollResp.results [s]) = none ↔
        "available" ∉ ss) := by
  refine ⟨?_, ?_, ?_, ?_, ?_, ?_⟩ <;>
    first
      | exact waitForAvailable_map_single_success_iff ss
      | exact waitForAvailable_map_single_none_iff ss

/-- A mutating remote call issued by one of the RDS workflow methods,
recorded in order of issue (describe calls are the poll responses and are
not recorded here). -/
inductive RdsCall where
  | createSnapshot (clusterId snapId : String)
  | shareSnapshot (snapId account : String)
  | restoreCluster (clusterId snapId : String)
  | modifyCluster (clusterId : String)
  | createInstance (instanceId clusterId : String)
deriving DecidableEq

/-- A raised exception propagating out of an RDS method: either the
not-found ValueError raised by a waiter on an empty describe result, or an
exception from a remote call. -/
inductive Err where
  | notFound
  | remote (msg : String)
deriving DecidableEq

/-- True when the trace contains a shareSnapshot call. -/
def shareIssued : List RdsCall → Bool
  | [] => false
  | RdsCall.shareSnapshot _ _ :: _ => true
  | _ :: t => shareIssued t

/-- True when the trace contains a modifyCluster call. -/
def modifyIssued : List RdsCall → Bool
  | [] => false
  | RdsCall.modifyCluster _ :: _ => true
  | _ :: t => modifyIssued t

/-- True when the trace contains a createInstance call. -/
def createInstanceIssued : List RdsCall → Bool
  | [] => false
  | RdsCall.createInstance _ _ :: _ => true
  | _ :: t => createInstanceIssued t

/-- Embeds RDS._share_rds_snapshot (rds/main.py lines 75-100): issues
modify_db_cluster_snapshot_attribute; on success returns the response, and
on any exception prints the error and falls through to return None, never
re-raising.  Except.ok (some r) is the returned response, Except.ok none is
the Python return None after a swallowed failure. -/
def _share_rds_snapshot (shareCall : CallResult String) :
    Except Err (Option String) :=
  match shareCall with
  | CallResult.ok r => Except.ok (some r)
  | CallResult.exn _ => Except.ok none

/-- Environment of one RDS.create_rds_cluster_snapshot invocation: the
result of the create_db_cluster_snapshot call, the responses of the
snapshot-readiness polls, and the result of the
modify_db_cluster_snapshot_attribute call (consulted only if sharing is
reached). -/
structure CreateSnapEnv where
  createCall : CallResult Unit
  snapPolls : List PollResp
  shareCall : CallResult String
deriving DecidableEq

/-- Embeds RDS.create_rds_cluster_snapshot (rds/main.py lines 251-288):
issue create_db_cluster_snapshot, wait for the snapshot with
_is_cluster_snapshot_ready, and if a shared account was supplied issue
_share_rds_snapshot; then return None (the remote response is discarded).
Any exception in the try block is printed and re-raised.  First component:
none while the waiter still polls, some (Except.ok v) for a normal return
of Python value v, some (Except.error e) for a raised exception.  Second
component: the trace of mutating calls issued. -/
def create_rds_cluster_snapshot (cluster_id snapshot_identifier : String)
    (snapshot_shared_account : Option String) (env : CreateSnapEnv) :
    Option (Except Err (Option String)) × List RdsCall :=
  let tr0 : List RdsCall := [RdsCall.createSnapshot cluster_id snapshot_identifier]
  match env.createCall with
  | CallResult.exn m => (some (Except.error (Err.remote m)), tr0)
  | CallResult.ok _ =>
    match _is_cluster_snapshot_ready env.snapPolls with
    | none => (none, tr0)
    | some WaitOutcome.notFound => (some (Except.error Err.notFound), tr0)
    | some (WaitOutcome.error m) => (some (Except.error (Err.remote m)), tr0)
    | some WaitOutcome.success =>
      match snapshot_shared_account with
      | none => (some (Except.ok none), tr0)
      | some acct =>
        match _share_rds_snapshot env.shareCall with
        | Except.ok _ =>
            (some (Except.ok none),
             tr0 ++ [RdsCall.shareSnapshot snapshot_identifier acct])
        | Except.error e =>
            (some (Except.error e),
             tr0 ++ [RdsCall.shareSnapshot snapshot_identifier acct])

/-- C2: a waiter that observes only not-yet-ready statuses and then an
empty describe result fails at once with the not-found error, regardless of
any responses that would have come later, and the error propagates out of
the enclosing workflow call (shown for create_rds_cluster_snapshot). -/
theorem waiters_empty_result_not_found (pre : List String) (rest : List PollResp)
    (h : ∀ s ∈ pre, s ≠ "available") :
    (_is_cluster_snapshot_ready
        ((pre.map fun s => PollResp.results [s]) ++ PollResp.results [] :: rest) =
      some WaitOutcome.notFound) ∧
    (_is_cluster_restored
        ((pre.map fun s => PollResp.results [s]) ++ PollResp.results [] :: rest) =
      some WaitOutcome.notFound) ∧
    (_is_instance_available
        ((pre.map fun s => PollResp.results [s]) ++ PollResp.results [] :: rest) =
      some WaitOutcome.notFound) ∧
    ∀ cid sid acct shareCall,
      (create_rds_cluster_snapshot cid sid acct
          ⟨CallResult.ok (),
           (pre.map fun s => PollResp.results [s]) ++ PollResp.results [] :: rest,
           shareCall⟩).1 = some (Except.error Err.notFound) := by
  have hw : waitForAvailable
      ((pre.map fun s => PollResp.results [s]) ++ PollResp.results [] :: rest) =
      some WaitOutcome.notFound := by
    rw [waitForAvailable_append_of_not_available pre h]
    rfl
  refine ⟨hw, hw, hw, ?_⟩
  intro cid sid acct shareCall
  simp [create_rds_cluster_snapshot, _is_cluster_snapshot_ready, hw]

/-- C2 witness at a concrete input: one pending poll, then an empty result,
with a later available response that is never reached. -/
theorem waiters_empty_result_not_found_witness :
    (∀ s ∈ ["creating"], s ≠ "available") ∧
    (create_rds_cluster_snapshot "c1" "s1" none
        ⟨CallResult.ok (),
         ((["creating"].map fun s => PollResp.results [s]) ++
           PollResp.results [] :: [PollResp.results ["available"]]),
         CallResult.ok "resp"⟩).1 = some (Except.error Err.notFound) := by
  have h : ∀ s ∈ ["creating"], s ≠ "available" := by decide
  exact ⟨h,
    (waiters_empty_result_not_found ["creating"] [PollResp.results ["available"]] h).2.2.2
      "c1" "s1" none (CallResult.ok "resp")⟩

/-- C3: _share_rds_snapshot never raises, whatever the remote sharing call
does; hence a create-snapshot workflow whose snapshot has become available
still returns normally (Python None) when a destination account was
supplied and the sharing call raises. -/
theorem share_failure_is_swallowed (cid sid acct m : String) (env : CreateSnapEnv)
    (hcreate : env.createCall = CallResult.ok ())
    (hwait : waitForAvailable env.snapPolls = some WaitOutcome.success)
    (hshare : env.shareCall = CallResult.exn m) :
    (∀ c : CallResult String, ∃ v, _share_rds_snapshot c = Except.ok v) ∧
    (create_rds_cluster_snapshot cid sid (some acct) env).1 =
      some (Except.ok none) := by
  constructor
  · intro c
    cases c with
    | ok r => exact ⟨some r, rfl⟩
    | exn m => exact ⟨none, rfl⟩
  · simp [create_rds_cluster_snapshot, _is_cluster_snapshot_ready, hcreate, hwait,
      hshare, _share_rds_snapshot]

/-- C3 witness at a concrete input: the readiness wait succeeds and the
sharing call raises, yet the workflow returns None. -/
theorem share_failure_is_swallowed_witness :
    (⟨CallResult.ok (), [PollResp.results ["available"]],
        CallResult.exn "denied"⟩ : CreateSnapEnv).createCall = CallResult.ok () ∧
    waitForAvailable [PollResp.results ["available"]] = some WaitOutcome.success ∧
    (create_rds_cluster_snapshot "c1" "s1" (some "123456789012")
        ⟨CallResult.ok (), [PollResp.results ["available"]],
         CallResult.exn "denied"⟩).1 = some (Except.ok none) :=
  ⟨rfl, rfl,
   (share_failure_is_swallowed "c1" "s1" "123456789012" "denied"
      ⟨CallResult.ok (), [PollResp.results ["available"]], CallResult.exn "denied"⟩
      rfl rfl rfl).2⟩

/-- C10: create_rds_cluster_snapshot returns the Python value None on every
successful invocation, never the remote response; and the sharing call is
issued exactly when a destination account was supplied, the create call
succeeded and the snapshot-readiness wait succeeded (so sharing always
comes after the wait). -/
theorem create_snapshot_returns_none_share_after_wait
    (cid sid : String) (acct : Option String) (env : CreateSnapEnv) :
    (∀ v, (create_rds_cluster_snapshot cid sid acct env).1 = some (Except.ok v) →
        v = none) ∧
    (shareIssued (create_rds_cluster_snapshot cid sid acct env).2 = true ↔
      acct.isSome = true ∧ env.createCall = CallResult.ok () ∧
        waitForAvailable env.snapPolls = some WaitOutcome.success) := by
  obtain ⟨cc, sp, sc⟩ := env
  cases cc with
  | exn m => simp [create_rds_cluster_snapshot, shareIssued]
  | ok u =>
    cases u
    cases hw : waitForAvailable sp with
    | none =>
        simp [create_rds_cluster_snapshot, _is_cluster_snapshot_ready, hw, shareIssued]
    | some w =>
      cases w with
      | success =>
          cases acct with
          | none =>
              simp [create_rds_cluster_snapshot, _is_cluster_snapshot_ready, hw,
                shareIssued]
          | some a =>
              cases sc with
              | ok r =>
                  simp [create_rds_cluster_snapshot, _is_cluster_snapshot_ready, hw,
                    _share_rds_snapshot, shareIssued]
              | exn m =>
                  simp [create_rds_cluster_snapshot, _is_cluster_snapshot_ready, hw,
                    _share_rds_snapshot, shareIssued]
      | notFound =>
          simp [create_rds_cluster_snapshot, _is_cluster_snapshot_ready, hw, shareIssued]
      | error m =>
          simp [create_rds_cluster_snapshot, _is_cluster_snapshot_ready, hw, shareIssued]

/-- C10 witness at a concrete input: a successful run with a destination
account returns None and has issued the sharing call. -/
theorem create_snapshot_returns_none_share_after_wait_witness :
    ((create_rds_cluster_snapshot "c1" "s1" (some "123456789012")
        ⟨CallResult.ok (), [PollResp.results ["available"]],
         CallResult.ok "resp"⟩).1 = some (Except.ok none) → (none : Option String) = none) ∧
    (shareIssued (create_rds_cluster_snapshot "c1" "s1" (some "123456789012")
        ⟨CallResult.ok (), [PollResp.results ["available"]],
         CallResult.ok "resp"⟩).2 = true ↔
      (some "123456789012").isSome = true ∧
        (CallResult.ok () : CallResult Unit) = CallResult.ok () ∧
        waitForAvailable [PollResp.results ["available"]] = some WaitOutcome.success) :=
  ⟨fun h => (create_snapshot_returns_none_share_after_wait "c1" "s1"
      (some "123456789012")
      ⟨CallResult.ok (), [PollResp.results ["available"]], CallResult.ok "resp"⟩).1
      none h,
   (create_snapshot_returns_none_share_after_wait "c1" "s1" (some "123456789012")
      ⟨CallResult.ok (), [PollResp.results ["available"]], CallResult.ok "resp"⟩).2⟩

/-- The lowercase hexadecimal alphabet used by the Python uuid module for
uuid4().hex. -/
def hexDigits : List Char := "0123456789abcdef".data

/-- The instance identifier generated by RDS.create_db_instance (rds/main.py
lines 384-385): the parent cluster identifier, a dash, and the first five
characters of uuid4().hex.  The 32-character lowercase hex string produced
by the external uuid library is an input here. -/
def generatedInstanceName (db_name : String) (uuid4Hex : List Char) : String :=
  db_name ++ "-" ++ String.mk (uuid4Hex.take 5)

/-- Embeds RDS.create_db_instance (rds/main.py lines 368-406): build the
instance name from the cluster id and five uuid hex characters, issue
create_db_instance, wait with _is_instance_available, and return the
instance name; exceptions are printed and re-raised.  First component as
in create_rds_cluster_snapshot; second component the issued mutating
calls. -/
def create_db_instance (db_name instance_type engine : String)
    (uuid4Hex : List Char) (createCall : CallResult Unit)
    (instancePolls : List PollResp) :
    Option (Except Err String) × List RdsCall :=
  let instance_name := generatedInstanceName db_name uuid4Hex
  let tr0 : List RdsCall := [RdsCall.createInstance instance_name db_name]
  match createCall with
  | CallResult.exn m => (some (Except.error (Err.remote m)), tr0)
  | CallResult.ok _ =>
    match _is_instance_available instancePolls with
    | none => (none, tr0)
    | some WaitOutcome.notFound => (some (Except.error Err.notFound), tr0)
    | some (WaitOutcome.error m) => (some (Except.error (Err.remote m)), tr0)
    | some WaitOutcome.success => (some (Except.ok instance_name), tr0)

/-- Caller-supplied arguments of RDS.restore_rds_cluster_from_snapshot
(rds/main.py lines 291-299). -/
structure RestoreParams where
  db_cluster_identifier : String
  snapshot_identifier : String
  engine : String
  db_cluster_instance_class : String
  db_subnet_group : String
  vpc_security_group_ids : List String
  kms_key_id : Option String
  reset_master_password : Bool
deriving DecidableEq

/-- Environment of one RDS.restore_rds_cluster_from_snapshot invocation:
results of the restore_db_cluster_from_snapshot and modify_db_cluster
calls, the cluster readiness polls, and the inputs consumed by the nested
create_db_instance call (uuid hex characters, create call result, instance
readiness polls). -/
structure RestoreEnv where
  restoreCall : CallResult Unit
  clusterPolls : List PollResp
  modifyCall : CallResult Unit
  uuid4Hex : List Char
  createInstanceCall : CallResult Unit
  instancePolls : List PollResp
deriving DecidableEq

/-- The instance-creation tail of restore_rds_cluster_from_snapshot
(rds/main.py lines 348-359): call create_db_instance with the restored
cluster identifier as db_name and return the pair of cluster name and
instance name. -/
def restoreInstanceStep (p : RestoreParams) (env : RestoreEnv)
    (tr : List RdsCall) :
    Option (Except Err (String × String)) × List RdsCall :=
  let inst := create_db_instance p.db_cluster_identifier
    p.db_cluster_instance_class p.engine env.uuid4Hex env.createInstanceCall
    env.instancePolls
  match inst.1 with
  | none => (none, tr ++ inst.2)
  | some (Except.error e) => (some (Except.error e), tr ++ inst.2)
  | some (Except.ok instName) =>
      (some (Except.ok (p.db_cluster_identifier, instName)), tr ++ inst.2)

/-- Embeds RDS.restore_rds_cluster_from_snapshot (rds/main.py lines
291-365): issue restore_db_cluster_from_snapshot, wait with
_is_cluster_restored, issue modify_db_cluster (manage master password,
apply immediately) only when reset_master_password is set, then create the
instance via create_db_instance and return (cluster_name, instance_name).
Any exception in the try block is printed and re-raised. -/
def restore_rds_cluster_from_snapshot (p : RestoreParams) (env : RestoreEnv) :
    Option (Except Err (String × String)) × List RdsCall :=
  let tr0 : List RdsCall :=
    [RdsCall.restoreCluster p.db_cluster_identifier p.snapshot_identifier]
  match env.restoreCall with
  | CallResult.exn m => (some (Except.error (Err.remote m)), tr0)
  | CallResult.ok _ =>
    match _is_cluster_restored env.clusterPolls with
    | none => (none, tr0)
    | some WaitOutcome.notFound => (some (Except.error Err.notFound), tr0)
    | some (WaitOutcome.error m) => (some (Except.error (Err.remote m)), tr0)
    | some WaitOutcome.success =>
      if p.reset_master_password then
        match env.modifyCall with
        | CallResult.exn m =>
            (some (Except.error (Err.remote m)),
             tr0 ++ [RdsCall.modifyCluster p.db_cluster_identifier])
        | CallResult.ok _ =>
            restoreInstanceStep p env
              (tr0 ++ [RdsCall.modifyCluster p.db_cluster_identifier])
      else
        restoreInstanceStep p env tr0

/-- A fatal outcome of the first two steps of the restore workflow: the
restore-from-snapshot call raised, or it succeeded and the cluster
readiness wait terminated with a raised error (not-found or a describe
exception). -/
def fatalRestoreStep (env : RestoreEnv) : Prop :=
  (∃ m, env.restoreCall = CallResult.exn m) ∨
    (env.restoreCall = CallResult.ok () ∧
      (waitForAvailable env.clusterPolls = some WaitOutcome.notFound ∨
        ∃ m, waitForAvailable env.clusterPolls = some (WaitOutcome.error m)))

lemma create_db_instance_trace (db_name instance_type engine : String)
    (uuid4Hex : List Char) (cc : CallResult Unit) (polls : List PollResp) :
    (create_db_instance db_name instance_type engine uuid4Hex cc polls).2 =
      [RdsCall.createInstance (generatedInstanceName db_name uuid4Hex) db_name] := by
  cases cc with
  | exn m => rfl
  | ok u =>
      cases u
      cases hw : _is_instance_available polls with
      | none => simp [create_db_instance, hw]
      | some w => cases w <;> simp [create_db_instance, hw]

/-- C4: when the restore-from-snapshot call raises, or the cluster
readiness wait fails (not-found or describe error), the restore workflow
propagates a raised error and never issues the create-instance remote
call. -/
theorem restore_fatal_never_creates_instance (p : RestoreParams)
    (env : RestoreEnv) (h : fatalRestoreStep env) :
    (∃ e, (restore_rds_cluster_from_snapshot p env).1 = some (Except.error e)) ∧
    createInstanceIssued (restore_rds_cluster_from_snapshot p env).2 = false := by
  rcases h with ⟨m, hm⟩ | ⟨hok, hfail⟩
  · refine ⟨⟨Err.remote m, ?_⟩, ?_⟩ <;>
      simp [restore_rds_cluster_from_snapshot, hm, createInstanceIssued]
  · rcases hfail with hnf | ⟨m, herr⟩
    · refine ⟨⟨Err.notFound, ?_⟩, ?_⟩ <;>
        simp [restore_rds_cluster_from_snapshot, hok, _is_cluster_restored, hnf,
          createInstanceIssued]
    · refine ⟨⟨Err.remote m, ?_⟩, ?_⟩ <;>
        simp [restore_rds_cluster_from_snapshot, hok, _is_cluster_restored, herr,
          createInstanceIssued]

/-- C4 witness at a concrete input: the cluster readiness wait reports
not-found; the workflow raises and no create-instance call appears in the
trace. -/
theorem restore_fatal_never_creates_instance_witness :
    fatalRestoreStep
      ⟨CallResult.ok (), [PollResp.results []], CallResult.ok (),
       "0123456789abcdef0123456789abcdef".data, CallResult.ok (),
       [PollResp.results ["available"]]⟩ ∧
    createInstanceIssued (restore_rds_cluster_from_snapshot
      ⟨"db-rest-01", "snap-001", "aurora-postgresql", "db.r5.large", "subnets",
       ["sg-1"], none, false⟩
      ⟨CallResult.ok (), [PollResp.results []], CallResult.ok (),
       "0123456789abcdef0123456789abcdef".data, CallResult.ok (),
       [PollResp.results ["available"]]⟩).2 = false := by
  have h : fatalRestoreStep
      ⟨CallResult.ok (), [PollResp.results []], CallResult.ok (),
       "0123456789abcdef0123456789abcdef".data, CallResult.ok (),
       [PollResp.results ["available"]]⟩ := Or.inr ⟨rfl, Or.inl rfl⟩
  exact ⟨h, (restore_fatal_never_creates_instance
    ⟨"db-rest-01", "snap-001", "aurora-postgresql", "db.r5.large", "subnets",
     ["sg-1"], none, false⟩ _ h).2⟩

/-- C5: a fully successful restore returns the pair of the caller-supplied
cluster identifier and the identifier of the instance that the workflow
itself created (the name issued in its create-instance call). -/
theorem restore_success_returns_cluster_and_instance_ids (p : RestoreParams)
    (env : RestoreEnv)
    (h1 : env.restoreCall = CallResult.ok ())
    (h2 : waitForAvailable env.clusterPolls = some WaitOutcome.success)
    (h3 : p.reset_master_password = false ∨ env.modifyCall = CallResult.ok ())
    (h4 : env.createInstanceCall = CallResult.ok ())
    (h5 : waitForAvailable env.instancePolls = some WaitOutcome.success) :
    (restore_rds_cluster_from_snapshot p env).1 =
      some (Except.ok (p.db_cluster_identifier,
        generatedInstanceName p.db_cluster_identifier env.uuid4Hex)) ∧
    RdsCall.createInstance
        (generatedInstanceName p.db_cluster_identifier env.uuid4Hex)
        p.db_cluster_identifier ∈ (restore_rds_cluster_from_snapshot p env).2 := by
  have hstep : ∀ tr, restoreInstanceStep p env tr =
      (some (Except.ok (p.db_cluster_identifier,
        generatedInstanceName p.db_cluster_identifier env.uuid4Hex)),
       tr ++ [RdsCall.createInstance
         (generatedInstanceName p.db_cluster_identifier env.uuid4Hex)
         p.db_cluster_identifier]) := by
    intro tr
    simp [restoreInstanceStep, create_db_instance, _is_instance_available, h4, h5]
  rcases h3 with h3 | h3
  · constructor <;>
      simp [restore_rds_cluster_from_snapshot, h1, _is_cluster_restored, h2, h3, hstep]
  · rcases hr : p.reset_master_password with _ | _ <;>
      constructor <;>
      simp [restore_rds_cluster_from_snapshot, h1, _is_cluster_restored, h2, h3, hr,
        hstep]

/-- C5 witness at a concrete input following the end-to-end scenario of the
specification. -/
theorem restore_success_returns_cluster_and_instance_ids_witness :
    (⟨CallResult.ok (), [PollResp.results ["creating"], PollResp.results ["available"]],
        CallResult.ok (), "0123456789abcdef0123456789abcdef".data, CallResult.ok (),
        [PollResp.results ["creating"], PollResp.results ["available"]]⟩ :
      RestoreEnv).restoreCall = CallResult.ok () ∧
    (restore_rds_cluster_from_snapshot
      ⟨"db-rest-01", "snap-001", "aurora-postgresql", "db.r5.large", "subnets",
       ["sg-1"], none, false⟩
      ⟨CallResult.ok (), [PollResp.results ["creating"], PollResp.results ["available"]],
       CallResult.ok (), "0123456789abcdef0123456789abcdef".data, CallResult.ok (),
       [PollResp.results ["creating"], PollResp.results ["available"]]⟩).1 =
      some (Except.ok ("db-rest-01",
        generatedInstanceName "db-rest-01" "0123456789abcdef0123456789abcdef".data)) :=
  ⟨rfl,
   (restore_success_returns_cluster_and_instance_ids
      ⟨"db-rest-01", "snap-001", "aurora-postgresql", "db.r5.large", "subnets",
       ["sg-1"], none, false⟩
      ⟨CallResult.ok (), [PollResp.results ["creating"], PollResp.results ["available"]],
       CallResult.ok (), "0123456789abcdef0123456789abcdef".data, CallResult.ok (),
       [PollResp.results ["creating"], PollResp.results ["available"]]⟩
      rfl rfl (Or.inl rfl) rfl rfl).1⟩

/-- C6: for an input drawn from the uuid library contract (uuid4().hex is a
32-character string over the lowercase hexadecimal alphabet), every
create_db_instance invocation with parent cluster id db_name issues its
create call under an identifier of exactly the shape db_name, a dash, and
a five-character lowercase hexadecimal suffix. -/
theorem create_instance_identifier_shape (db_name instance_type engine : String)
    (uuid4Hex : List Char) (cc : CallResult Unit) (polls : List PollResp)
    (h32 : uuid4Hex.length = 32) (hhex : ∀ c ∈ uuid4Hex, c ∈ hexDigits) :
    ∃ suffix : List Char,
      generatedInstanceName db_name uuid4Hex = db_name ++ "-" ++ String.mk suffix ∧
      suffix.length = 5 ∧ (∀ c ∈ suffix, c ∈ hexDigits) ∧
      (create_db_instance db_name instance_type engine uuid4Hex cc polls).2 =
        [RdsCall.createInstance (db_name ++ "-" ++ String.mk suffix) db_name] := by
  refine ⟨uuid4Hex.take 5, rfl, ?_, ?_, ?_⟩
  · rw [List.length_take, h32]
    rfl
  · intro c hc
    exact hhex c (List.take_subset 5 uuid4Hex hc)
  · rw [create_db_instance_trace]
    rfl

/-- C6 witness at a concrete 32-character lowercase hexadecimal uuid
string. -/
theorem create_instance_identifier_shape_witness :
    ("0123456789abcdef0123456789abcdef".data.length = 32 ∧
      ∀ c ∈ "0123456789abcdef0123456789abcdef".data, c ∈ hexDigits) ∧
    ∃ suffix : List Char,
      generatedInstanceName "db-rest-01" "0123456789abcdef0123456789abcdef".data =
        "db-rest-01" ++ "-" ++ String.mk suffix ∧
      suffix.length = 5 ∧ (∀ c ∈ suffix, c ∈ hexDigits) ∧
      (create_db_instance "db-rest-01" "db.r5.large" "aurora-postgresql"
          "0123456789abcdef0123456789abcdef".data (CallResult.ok ())
          [PollResp.results ["available"]]).2 =
        [RdsCall.createInstance ("db-rest-01" ++ "-" ++ String.mk suffix)
          "db-rest-01"] :=
  ⟨⟨by decide, by decide⟩,
   create_instance_identifier_shape "db-rest-01" "db.r5.large" "aurora-postgresql"
     "0123456789abcdef0123456789abcdef".data (CallResult.ok ())
     [PollResp.results ["available"]] (by decide) (by decide)⟩

lemma restoreInstanceStep_trace (p : RestoreParams) (env : RestoreEnv)
    (tr : List RdsCall) :
    (restoreInstanceStep p env tr).2 =
      tr ++ [RdsCall.createInstance
        (generatedInstanceName p.db_cluster_identifier env.uuid4Hex)
        p.db_cluster_identifier] := by
  unfold restoreInstanceStep
  cases hi : (create_db_instance p.db_cluster_identifier
      p.db_cluster_instance_class p.engine env.uuid4Hex env.createInstanceCall
      env.instancePolls).1 with
  | none => simp [hi, create_db_instance_trace]
  | some r => cases r <;> simp [hi, create_db_instance_trace]

/-- C7: the modify-cluster call (manage master password, apply immediately)
is issued exactly when the caller set reset_master_password, the restore
call succeeded, and the cluster readiness wait succeeded; and when it is
reached and its remote call raises, the restore workflow propagates that
error to the caller (unlike snapshot sharing). -/
theorem restore_modify_iff_reset_and_fatal (p : RestoreParams)
    (env : RestoreEnv) (m : String) :
    (modifyIssued (restore_rds_cluster_from_snapshot p env).2 = true ↔
      (p.reset_master_password = true ∧ env.restoreCall = CallResult.ok () ∧
        waitForAvailable env.clusterPolls = some WaitOutcome.success)) ∧
    (p.reset_master_password = true → env.restoreCall = CallResult.ok () →
      waitForAvailable env.clusterPolls = some WaitOutcome.success →
      env.modifyCall = CallResult.exn m →
      (restore_rds_cluster_from_snapshot p env).1 =
        some (Except.error (Err.remote m))) := by
  constructor
  · cases hc : env.restoreCall with
    | exn m2 =>
        simp [restore_rds_cluster_from_snapshot, hc, modifyIssued]
    | ok u =>
        cases u
        cases hw : waitForAvailable env.clusterPolls with
        | none =>
            simp [restore_rds_cluster_from_snapshot, hc, _is_cluster_restored, hw,
              modifyIssued]
        | some w =>
          cases w with
          | success =>
              cases hr : p.reset_master_password with
              | false =>
                  simp [restore_rds_cluster_from_snapshot, hc, _is_cluster_restored,
                    hw, hr, restoreInstanceStep_trace, modifyIssued]
              | true =>
                  cases hm : env.modifyCall with
                  | exn m2 =>
                      simp [restore_rds_cluster_from_snapshot, hc,
                        _is_cluster_restored, hw, hr, hm, modifyIssued]
                  | ok u2 =>
                      cases u2
                      simp [restore_rds_cluster_from_snapshot, hc,
                        _is_cluster_restored, hw, hr, hm, restoreInstanceStep_trace,
                        modifyIssued]
          | notFound =>
              simp [restore_rds_cluster_from_snapshot, hc, _is_cluster_restored, hw,
                modifyIssued]
          | error m2 =>
              simp [restore_rds_cluster_from_snapshot, hc, _is_cluster_restored, hw,
                modifyIssued]
  · intro hr hc hw hm
    simp [restore_rds_cluster_from_snapshot, hc, _is_cluster_restored, hw, hr, hm]

/-- C7 witness at a concrete input: reset requested, wait succeeded, modify
call raises, so the workflow raises that error; and the modify call appears
in the trace. -/
theorem restore_modify_iff_reset_and_fatal_witness :
    (modifyIssued (restore_rds_cluster_from_snapshot
        ⟨"db-rest-01", "snap-001", "aurora-postgresql", "db.r5.large", "subnets",
         ["sg-1"], none, true⟩
        ⟨CallResult.ok (), [PollResp.results ["available"]], CallResult.exn "denied",
         "0123456789abcdef0123456789abcdef".data, CallResult.ok (),
         [PollResp.results ["available"]]⟩).2 = true ↔
      (true = true ∧ (CallResult.ok () : CallResult Unit) = CallResult.ok () ∧
        waitForAvailable [PollResp.results ["available"]] =
          some WaitOutcome.success)) ∧
    (true = true → (CallResult.ok () : CallResult Unit) = CallResult.ok () →
      waitForAvailable [PollResp.results ["available"]] = some WaitOutcome.success →
      (CallResult.exn "denied" : CallResult Unit) = CallResult.exn "denied" →
      (restore_rds_cluster_from_snapshot
        ⟨"db-rest-01", "snap-001", "aurora-postgresql", "db.r5.large", "subnets",
         ["sg-1"], none, true⟩
        ⟨CallResult.ok (), [PollResp.results ["available"]], CallResult.exn "denied",
         "0123456789abcdef0123456789abcdef".data, CallResult.ok (),
         [PollResp.results ["available"]]⟩).1 =
        some (Except.error (Err.remote "denied"))) :=
  restore_modify_iff_reset_and_fatal
    ⟨"db-rest-01", "snap-001", "aurora-postgresql", "db.r5.large", "subnets",
     ["sg-1"], none, true⟩
    ⟨CallResult.ok (), [PollResp.results ["available"]], CallResult.exn "denied",
     "0123456789abcdef0123456789abcdef".data, CallResult.ok (),
     [PollResp.results ["available"]]⟩ "denied"

/-- A snapshot record returned by a describe listing, reduced to the field
the finder reads; the identifier is optional because the Python code reads
it with snapshot.get(id_key) and falls back to the empty string. -/
structure SnapshotRec where
  ident : Option String
deriving DecidableEq

/-- The identifier the finder compares against, with the Python default of
the empty string for a record without the key. -/
def snapshotIdent (r : SnapshotRec) : String := r.ident.getD ""

/-- Lowercasing of a string character by character, as Python str.lower
does for the ASCII identifiers involved here. -/
def toLowerStr (s : String) : String := String.mk (s.data.map Char.toLower)

/-- Whether the second list is an initial segment of the first. -/
def listStartsWith : List Char → List Char → Bool
  | _, [] => true
  | [], _ :: _ => false
  | a :: hay, b :: needle => a = b && listStartsWith hay needle

/-- Whether the second list occurs contiguously inside the first, as the
Python membership test needle in hay does for strings. -/
def listContainsSub : List Char → List Char → Bool
  | [], needle => listStartsWith [] needle
  | a :: hay, needle => listStartsWith (a :: hay) needle || listContainsSub hay needle

/-- The match test of RDS.find_snapshots_by_partial_name (rds/main.py line
240): partial_name.lower() in snapshot_id.lower(). -/
def partialNameMatches (partial_name snapshot_id : String) : Bool :=
  listContainsSub (toLowerStr snapshot_id).data (toLowerStr partial_name).data

/-- Embeds RDS.find_snapshots_by_partial_name (rds/main.py lines 201-248):
the describe listing (cluster or instance snapshots, shared included) is
the supplied CallResult; on success the records whose identifier contains
the partial name case-insensitively are collected in order; if the listing
call raises, the error is printed and the snapshots accumulated so far (the
empty list) are returned, nothing propagates. -/
def find_snapshots_by_partial_name (partial_name : String)
    (queryResult : CallResult (List SnapshotRec)) : List SnapshotRec :=
  match queryResult with
  | CallResult.exn _ => []
  | CallResult.ok snaps =>
      snaps.filter fun snap => partialNameMatches partial_name (snapshotIdent snap)

lemma listStartsWith_iff (hay needle : List Char) :
    listStartsWith hay needle = true ↔ needle <+: hay := by
  induction needle generalizing hay with
  | nil => simp [listStartsWith]
  | cons b nt ih =>
      cases hay with
      | nil =>
          simp [listStartsWith]
      | cons a ht =>
          rw [List.cons_prefix_cons]
          simp only [listStartsWith, Bool.and_eq_true, decide_eq_true_eq, ih]
          constructor
          · rintro ⟨h1, h2⟩
            exact ⟨h1.symm, h2⟩
          · rintro ⟨h1, h2⟩
            exact ⟨h1.symm, h2⟩

lemma listContainsSub_iff (hay needle : List Char) :
    listContainsSub hay needle = true ↔ needle <:+: hay := by
  induction hay with
  | nil =>
      simp [listContainsSub, listStartsWith_iff, List.infix_iff_prefix_suffix]
  | cons a t ih =>
      rw [List.infix_cons_iff]
      simp [listContainsSub, listStartsWith_iff, ih]

/-- C8: on a successful listing the finder returns exactly the records
whose identifier contains the partial name as a case-insensitive substring,
as a sublist of the listing (original order preserved); and when the
listing call raises, the finder returns the empty list instead of
propagating. -/
theorem find_snapshots_matches_and_swallows (pn : String)
    (snaps : List SnapshotRec) (m : String) :
    List.Sublist (find_snapshots_by_partial_name pn (CallResult.ok snaps)) snaps ∧
    (∀ r, r ∈ find_snapshots_by_partial_name pn (CallResult.ok snaps) ↔
      r ∈ snaps ∧
        (toLowerStr pn).data <:+: (toLowerStr (snapshotIdent r)).data) ∧
    find_snapshots_by_partial_name pn (CallResult.exn m) = [] := by
  refine ⟨List.filter_sublist snaps, ?_, rfl⟩
  intro r
  rw [find_snapshots_by_partial_name, List.mem_filter, partialNameMatches,
    listContainsSub_iff]

/-- Embeds AWSClientCreator.create_client (auth/main.py lines 21-55) up to
the boto3.client call: the association list of keyword arguments handed to
boto3.client.  Credentials are added only when both the access key id and
the secret access key are present; the session token is added only when all
three are present; in every other case the base parameters alone are
passed.  region_name stands for self.region_name. -/
def create_client (service_name region_name : String)
    (aws_access_key_id aws_secret_access_key aws_session_token : Option String) :
    List (String × String) :=
  let params := [("service_name", service_name), ("region_name", region_name)]
  match aws_access_key_id, aws_secret_access_key, aws_session_token with
  | some k, some s, some t =>
      params ++ [("aws_access_key_id", k), ("aws_secret_access_key", s),
        ("aws_session_token", t)]
  | some k, some s, none =>
      params ++ [("aws_access_key_id", k), ("aws_secret_access_key", s)]
  | _, _, _ => params

/-- Whether a keyword argument of the given name is among the parameters. -/
def hasParam : List (String × String) → String → Bool
  | [], _ => false
  | (k, _) :: rest, key => k = key || hasParam rest key

/-- C9: create_client forwards the access key id and secret access key to
the client constructor exactly when both are supplied, forwards the session
token exactly when all three credential arguments are supplied, and in
every other case passes only the service name and region, silently ignoring
partial credentials. -/
theorem create_client_credential_forwarding (sn rn : String)
    (key secret token : Option String) :
    (hasParam (create_client sn rn key secret token) "aws_access_key_id" = true ↔
      key.isSome = true ∧ secret.isSome = true) ∧
    (hasParam (create_client sn rn key secret token) "aws_secret_access_key" = true ↔
      key.isSome = true ∧ secret.isSome = true) ∧
    (hasParam (create_client sn rn key secret token) "aws_session_token" = true ↔
      key.isSome = true ∧ secret.isSome = true ∧ token.isSome = true) ∧
    (key.isSome = false ∨ secret.isSome = false →
      create_client sn rn key secret token =
        [("service_name", sn), ("region_name", rn)]) := by
  cases key <;> cases secret <;> cases token <;>
    simp [create_client, hasParam]

/-- C9 witness at a concrete input: a session token supplied without the
two keys is silently dropped and the client is built with service name and
region alone. -/
theorem create_client_credential_forwarding_witness :
    (hasParam (create_client "rds" "us-east-1" none none (some "tok"))
        "aws_session_token" = true ↔
      (none : Option String).isSome = true ∧
        (none : Option String).isSome = true ∧ (some "tok").isSome = true) ∧
    ((none : Option String).isSome = false ∨
        (none : Option String).isSome = false →
      create_client "rds" "us-east-1" none none (some "tok") =
        [("service_name", "rds"), ("region_name", "us-east-1")]) :=
  ⟨(create_client_credential_forwarding "rds" "us-east-1" none none
      (some "tok")).2.2.1,
   (create_client_credential_forwarding "rds" "us-east-1" none none
      (some "tok")).2.2.2⟩

